import Mathlib

/-!
# Verification of the serde_arrow schema and source-builder fragment

This development embeds, in Lean, the parts of the `serde_arrow` repository
that its specification talks about:

* the schema model (time units, data types, strategies, fields),
* the textual schema DSL for `Time64` data types,
* the primitive column builders/sources (values buffer + validity bitmap),
* the date-string strategies `UtcStrAsDate64` / `NaiveStrAsDate64`,
* the schema tracer for string-valued fields (date guessing, nullability),
* the arrow2 dynamic source builders from `arrow2/sources/builder.rs`.

Definitions translated from `arrow2/sources/builder.rs` keep the structure and
names of that file.  Components whose implementation is not part of the
reviewed sources (the serializer, deserializer, DSL parser and tracer) are
modelled from the specification, as marked on each definition.
-/

namespace SerdeArrow

/-- Arrow time unit, as in the schema model. -/
inductive TimeUnit where
  | second
  | millisecond
  | microsecond
  | nanosecond
deriving DecidableEq, Repr

/-- Strategy metadata hint attached to a field. -/
inductive Strategy where
  | utcStrAsDate64
  | naiveStrAsDate64
  | tupleAsStruct
  | mapAsStruct
  | unknownVariant
deriving DecidableEq, Repr

/-- The logical Arrow data type (the fragment relevant to the verified
claims: primitives, booleans, strings, date/time types, and structs). -/
inductive DataType where
  | null
  | boolean
  | int8
  | int16
  | int32
  | int64
  | uint8
  | uint16
  | uint32
  | uint64
  | float32
  | float64
  | utf8
  | largeUtf8
  | date32
  | date64
  | time64 (unit : TimeUnit)
  | struct (children : List (String × DataType))

/-- A schema field: name, data type, nullability and optional strategy. -/
structure SField where
  name : String
  dataType : DataType
  nullable : Bool
  strategy : Option Strategy

/-- Modelled from the spec: the validation of `Time64`
unit parameters in the schema DSL parser (the parser itself is not among the reviewed sources; the
error text is the one checked by the test `time64_type_invalid_units`
in the repository).  `Time64` only admits `Microsecond` and `Nanosecond`; any other unit
is rejected with a SchemaInvalid message enumerating the valid units. -/
def validateTime64 : TimeUnit → Except String DataType
  | .microsecond => .ok (.time64 .microsecond)
  | .nanosecond => .ok (.time64 .nanosecond)
  | _ => .error "Error: expected valid time unit (Microsecond or Nanosecond)"

/-- Modelled from the spec: the time-unit token reader of the DSL.  The repository
tests (`i64_as_time64_microseconds`, `time64_chrono_microseconds`) exercise the
plural spellings, so both singular and plural tokens are accepted. -/
def readTimeUnit : String → Option TimeUnit
  | "Second" => some .second
  | "Seconds" => some .second
  | "Millisecond" => some .millisecond
  | "Milliseconds" => some .millisecond
  | "Microsecond" => some .microsecond
  | "Microseconds" => some .microsecond
  | "Nanosecond" => some .nanosecond
  | "Nanoseconds" => some .nanosecond
  | _ => none

/-- Modelled from the spec: the textual schema DSL for data types (§6),
restricted to the forms the claims exercise.  Unknown tags and invalid unit
combinations are rejected with a message naming the valid choices. -/
def parseDataTypeStr (s : String) : Except String DataType :=
  if s = "Null" then .ok .null
  else if s = "Bool" then .ok .boolean
  else if s = "Int8" then .ok .int8
  else if s = "Int16" then .ok .int16
  else if s = "Int32" then .ok .int32
  else if s = "Int64" then .ok .int64
  else if s = "UInt8" then .ok .uint8
  else if s = "UInt16" then .ok .uint16
  else if s = "UInt32" then .ok .uint32
  else if s = "UInt64" then .ok .uint64
  else if s = "Float32" then .ok .float32
  else if s = "Float64" then .ok .float64
  else if s = "Utf8" then .ok .utf8
  else if s = "LargeUtf8" then .ok .largeUtf8
  else if s = "Date32" then .ok .date32
  else if s = "Date64" then .ok .date64
  else
    match s.data with
    | 'T' :: 'i' :: 'm' :: 'e' :: '6' :: '4' :: '(' :: rest =>
      if rest.getLast? = some ')' then
        match readTimeUnit (String.mk rest.dropLast) with
        | some u => validateTime64 u
        | none => .error "Error: expected valid time unit (Microsecond or Nanosecond)"
      else .error ("unknown data type: " ++ s)
    | _ => .error ("unknown data type: " ++ s)

/-! ## Primitive columns: builders and sources

Modelled from the spec (§3 "Column buffers", §4.2, §4.3): the per-column
serializer for fixed-width integer-typed data types.  Each column owns a
values buffer and a validity bitmap; a null slot stores a default value
with its validity bit cleared. -/

/-- A finalized primitive column: values buffer plus validity bitmap
(`true` = valid, `false` = null). -/
structure PrimitiveColumn where
  values : List Int
  validity : List Bool

/-- The inclusive range of legal values for the integer-typed data types
(dates and times store their underlying integer representation). -/
def intRange : DataType → Option (Int × Int)
  | .int8 => some (-(2 ^ 7), 2 ^ 7 - 1)
  | .int16 => some (-(2 ^ 15), 2 ^ 15 - 1)
  | .int32 => some (-(2 ^ 31), 2 ^ 31 - 1)
  | .int64 => some (-(2 ^ 63), 2 ^ 63 - 1)
  | .uint8 => some (0, 2 ^ 8 - 1)
  | .uint16 => some (0, 2 ^ 16 - 1)
  | .uint32 => some (0, 2 ^ 32 - 1)
  | .uint64 => some (0, 2 ^ 64 - 1)
  | .date32 => some (-(2 ^ 31), 2 ^ 31 - 1)
  | .date64 => some (-(2 ^ 63), 2 ^ 63 - 1)
  | .time64 _ => some (-(2 ^ 63), 2 ^ 63 - 1)
  | _ => none

/-- Does the optional value fit the range of the column (a null slot always
fits)? -/
def legalValue (lo hi : Int) : Option Int → Bool
  | none => true
  | some v => decide (lo ≤ v) && decide (v ≤ hi)

/-- Modelled from the spec: the primitive column builder run over a record
list.  Each record is either a value (checked against the range of the column;
out-of-range input fails) or a null slot (stored as the default value `0`
with the validity bit cleared). -/
def serializePrimitive (lo hi : Int) : List (Option Int) → Except String PrimitiveColumn
  | [] => .ok ⟨[], []⟩
  | none :: rest =>
    match serializePrimitive lo hi rest with
    | .ok c => .ok ⟨0 :: c.values, false :: c.validity⟩
    | .error e => .error e
  | some v :: rest =>
    if lo ≤ v ∧ v ≤ hi then
      match serializePrimitive lo hi rest with
      | .ok c => .ok ⟨v :: c.values, true :: c.validity⟩
      | .error e => .error e
    else .error "OutOfRange"

/-- Modelled from the spec: the primitive column source, emitting one value
or null per row as directed by the validity bitmap. -/
def deserializePrimitive (c : PrimitiveColumn) : List (Option Int) :=
  List.zipWith (fun v b => if b then some v else none) c.values c.validity

/-! ## Typed columns for every supported data type

Modelled from the spec (§3 "Column buffers", §4.2, §4.3): one column layout
per supported data type — fixed-width primitives and bit patterns with a
validity bitmap, strings with an offsets buffer plus contiguous bytes,
structs with one child column per field, and the null column.  This is the
value universe and per-type builder/source pair the round-trip invariant
quantifies over. -/

/-- A record value as fed through the value protocol: integers (also
backing dates and times), booleans, floating-point bit patterns (stored
verbatim by the builders), strings, and structs with one optional value
per child field. -/
inductive Value where
  | intV (v : Int)
  | boolV (b : Bool)
  | floatV (bits : Nat)
  | strV (s : String)
  | structV (children : List (Option Value))

/-- A finalized column, one layout per data type: values plus validity for
the fixed-width types, offsets plus bytes plus validity for strings, child
columns plus validity for structs, and a bare length for the null type. -/
inductive Column where
  | intCol (values : List Int) (validity : List Bool)
  | boolCol (values : List Bool) (validity : List Bool)
  | floatCol (values : List Nat) (validity : List Bool)
  | strCol (offsets : List Int) (bytes : List Char) (validity : List Bool)
  | structCol (children : List Column) (validity : List Bool)
  | nullCol (len : Nat)

/-- Does the value fit an integer column with the given inclusive range? -/
def legalIntValue (lo hi : Int) : Value → Bool
  | .intV x => decide (lo ≤ x) && decide (x ≤ hi)
  | _ => false

mutual

/-- Is the optional value legal for the data type?  A null slot is always
legal; otherwise the value class must match the data type, integers must
fit the range of the column, float bit patterns must fit the width, string
bytes must fit the offset width, and struct children must align with the
child fields. -/
def legalFor (dt : DataType) (v : Option Value) : Bool :=
  match v with
  | none => true
  | some w =>
    match intRange dt with
    | some (lo, hi) => legalIntValue lo hi w
    | none =>
      match dt, w with
      | .boolean, .boolV _ => true
      | .float32, .floatV bits => decide (bits < 2 ^ 32)
      | .float64, .floatV bits => decide (bits < 2 ^ 64)
      | .utf8, .strV s => decide ((s.length : Int) ≤ 2 ^ 31 - 1)
      | .largeUtf8, .strV s => decide ((s.length : Int) ≤ 2 ^ 63 - 1)
      | .struct fields, .structV cs => legalChildren fields cs
      | _, _ => false

/-- Are the struct children aligned with the child fields, each child legal
for its field? -/
def legalChildren : List (String × DataType) → List (Option Value) → Bool
  | [], [] => true
  | f :: fs, c :: cs => legalFor f.2 c && legalChildren fs cs
  | _, _ => false

end

/-- Modelled from the spec: the integer column builder over typed record
values (out-of-range input fails, mismatched value classes fail, null
slots store the default with the validity bit cleared). -/
def serializeIntRows (lo hi : Int) : List (Option Value) → Except String (List Int × List Bool)
  | [] => .ok ([], [])
  | none :: rest =>
    match serializeIntRows lo hi rest with
    | .ok p => .ok (0 :: p.1, false :: p.2)
    | .error e => .error e
  | some (.intV x) :: rest =>
    if lo ≤ x ∧ x ≤ hi then
      match serializeIntRows lo hi rest with
      | .ok p => .ok (x :: p.1, true :: p.2)
      | .error e => .error e
    else .error "OutOfRange"
  | some _ :: _ => .error "SchemaMismatch"

/-- Modelled from the spec: the boolean column builder. -/
def serializeBoolRows : List (Option Value) → Except String (List Bool × List Bool)
  | [] => .ok ([], [])
  | none :: rest =>
    match serializeBoolRows rest with
    | .ok p => .ok (false :: p.1, false :: p.2)
    | .error e => .error e
  | some (.boolV b) :: rest =>
    match serializeBoolRows rest with
    | .ok p => .ok (b :: p.1, true :: p.2)
    | .error e => .error e
  | some _ :: _ => .error "SchemaMismatch"

/-- Modelled from the spec: the float column builder; bit patterns are
stored verbatim (no arithmetic), bounded by the width of the type. -/
def serializeFloatRows (bound : Nat) : List (Option Value) → Except String (List Nat × List Bool)
  | [] => .ok ([], [])
  | none :: rest =>
    match serializeFloatRows bound rest with
    | .ok p => .ok (0 :: p.1, false :: p.2)
    | .error e => .error e
  | some (.floatV bits) :: rest =>
    if bits < bound then
      match serializeFloatRows bound rest with
      | .ok p => .ok (bits :: p.1, true :: p.2)
      | .error e => .error e
    else .error "OutOfRange"
  | some _ :: _ => .error "SchemaMismatch"

/-- Modelled from the spec: the string column builder.  Bytes are appended
to the contiguous buffer and the new total length is pushed onto the
offsets buffer (which therefore starts at `start` and is monotonically
non-decreasing); a null row repeats the previous offset.  Exceeding the
offset range of the column fails. -/
def serializeStrRows (maxOff start : Int) :
    List (Option Value) → Except String (List Int × List Char × List Bool)
  | [] => .ok ([start], [], [])
  | none :: rest =>
    match serializeStrRows maxOff start rest with
    | .ok t => .ok (start :: t.1, t.2.1, false :: t.2.2)
    | .error e => .error e
  | some (.strV s) :: rest =>
    if start + s.length ≤ maxOff then
      match serializeStrRows maxOff (start + s.length) rest with
      | .ok t => .ok (start :: t.1, s.data ++ t.2.1, true :: t.2.2)
      | .error e => .error e
    else .error "OutOfRange"
  | some _ :: _ => .error "SchemaMismatch"

/-- The first child slot of a struct row (a null row contributes a null
child slot; a non-struct row is a schema mismatch). -/
def headChild : Option Value → Except String (Option Value)
  | none => .ok none
  | some (.structV (c :: _)) => .ok c
  | some (.structV []) => .error "StructuralError"
  | some _ => .error "SchemaMismatch"

/-- The remaining child slots of a struct row. -/
def tailChild : Option Value → Option Value
  | some (.structV (_ :: cs)) => some (.structV cs)
  | x => x

/-- Apply a fallible function across a list, failing on the first error. -/
def mapExcept (f : α → Except String β) : List α → Except String (List β)
  | [] => .ok []
  | a :: as =>
    match f a with
    | .ok b =>
      match mapExcept f as with
      | .ok bs => .ok (b :: bs)
      | .error e => .error e
    | .error e => .error e

/-- Wrap the integer row builder into a column (shared by every
integer-typed data type). -/
def serializeIntColumnAux (lo hi : Int) (rows : List (Option Value)) : Except String Column :=
  match serializeIntRows lo hi rows with
  | .ok p => .ok (.intCol p.1 p.2)
  | .error e => .error e

mutual

/-- Modelled from the spec: the column builder for any supported data type,
dispatching on the type tag and producing the matching column layout. -/
def serializeColumn : DataType → List (Option Value) → Except String Column
  | .null, rows =>
    if rows.all (fun r => r.isNone) then .ok (.nullCol rows.length)
    else .error "SchemaMismatch"
  | .boolean, rows =>
    match serializeBoolRows rows with
    | .ok p => .ok (.boolCol p.1 p.2)
    | .error e => .error e
  | .int8, rows => serializeIntColumnAux (-(2 ^ 7)) (2 ^ 7 - 1) rows
  | .int16, rows => serializeIntColumnAux (-(2 ^ 15)) (2 ^ 15 - 1) rows
  | .int32, rows => serializeIntColumnAux (-(2 ^ 31)) (2 ^ 31 - 1) rows
  | .int64, rows => serializeIntColumnAux (-(2 ^ 63)) (2 ^ 63 - 1) rows
  | .uint8, rows => serializeIntColumnAux 0 (2 ^ 8 - 1) rows
  | .uint16, rows => serializeIntColumnAux 0 (2 ^ 16 - 1) rows
  | .uint32, rows => serializeIntColumnAux 0 (2 ^ 32 - 1) rows
  | .uint64, rows => serializeIntColumnAux 0 (2 ^ 64 - 1) rows
  | .date32, rows => serializeIntColumnAux (-(2 ^ 31)) (2 ^ 31 - 1) rows
  | .date64, rows => serializeIntColumnAux (-(2 ^ 63)) (2 ^ 63 - 1) rows
  | .time64 _, rows => serializeIntColumnAux (-(2 ^ 63)) (2 ^ 63 - 1) rows
  | .float32, rows =>
    match serializeFloatRows (2 ^ 32) rows with
    | .ok p => .ok (.floatCol p.1 p.2)
    | .error e => .error e
  | .float64, rows =>
    match serializeFloatRows (2 ^ 64) rows with
    | .ok p => .ok (.floatCol p.1 p.2)
    | .error e => .error e
  | .utf8, rows =>
    match serializeStrRows (2 ^ 31 - 1) 0 rows with
    | .ok t => .ok (.strCol t.1 t.2.1 t.2.2)
    | .error e => .error e
  | .largeUtf8, rows =>
    match serializeStrRows (2 ^ 63 - 1) 0 rows with
    | .ok t => .ok (.strCol t.1 t.2.1 t.2.2)
    | .error e => .error e
  | .struct fields, rows =>
    match serializeStructCols fields rows with
    | .ok cols => .ok (.structCol cols (rows.map (fun r => r.isSome)))
    | .error e => .error e

/-- One child column per struct field: the child column of a field is built
from the child slot of that field in every row. -/
def serializeStructCols : List (String × DataType) → List (Option Value) →
    Except String (List Column)
  | [], _ => .ok []
  | f :: fs, rows =>
    match mapExcept headChild rows with
    | .error e => .error e
    | .ok heads =>
      match serializeColumn f.2 heads with
      | .error e => .error e
      | .ok col =>
        match serializeStructCols fs (rows.map tailChild) with
        | .error e => .error e
        | .ok cols => .ok (col :: cols)

end

/-- Modelled from the spec: the string column source — consecutive offsets
delimit the bytes of each row, the validity bitmap designates null rows. -/
def readStrRows : List Int → List Char → List Bool → List (Option Value)
  | o1 :: o2 :: os, bytes, b :: bs =>
    let n := (o2 - o1).toNat
    (if b then some (.strV (String.mk (bytes.take n))) else none) ::
      readStrRows (o2 :: os) (bytes.drop n) bs
  | _, _, _ => []

/-- Modelled from the spec: the struct source — each row takes the next
slot of every deserialized child column, guarded by the validity bitmap. -/
def readStructRows (cols : List (List (Option Value))) : List Bool → List (Option Value)
  | [] => []
  | b :: bs =>
    (if b then some (.structV (cols.map (fun c => c.headD none))) else none) ::
      readStructRows (cols.map (fun c => c.tail)) bs

mutual

/-- Modelled from the spec: the column source for any supported data type,
emitting one optional value per row as directed by the validity bitmap. -/
def deserializeColumn : Column → List (Option Value)
  | .intCol vs bs => List.zipWith (fun v b => if b then some (Value.intV v) else none) vs bs
  | .boolCol vs bs => List.zipWith (fun v b => if b then some (Value.boolV v) else none) vs bs
  | .floatCol vs bs => List.zipWith (fun v b => if b then some (Value.floatV v) else none) vs bs
  | .strCol offsets bytes validity => readStrRows offsets bytes validity
  | .structCol children validity => readStructRows (deserializeCols children) validity
  | .nullCol n => List.replicate n none

/-- Deserialize every child column of a struct. -/
def deserializeCols : List Column → List (List (Option Value))
  | [] => []
  | c :: cs => deserializeColumn c :: deserializeCols cs

end

/-! ## The arrow2 dynamic source builders

Embedding of `src/arrow2/sources/builder.rs`.  A runtime arrow2 array is
known only as `&dyn Array`; the builders recover the concrete array type by
downcasting, which can fail, and index child arrays by field position,
which can go out of bounds (a Rust panic). -/

/-- The concrete Rust element type of an arrow2 `PrimitiveArray<T>`. -/
inductive ConcreteType where
  | i8
  | i16
  | i32
  | i64
  | u8
  | u16
  | u32
  | u64
  | f32
  | f64
deriving DecidableEq, Repr

/-- A runtime arrow2 array as seen through `&dyn Array`: its concrete type
is what `as_any().downcast_ref()` tests.  Element data is irrelevant to the
builder functions, which only wrap the array, so only lengths are kept. -/
inductive ArrayDyn where
  | primitiveArr (t : ConcreteType) (len : Nat)
  | booleanArr (len : Nat)
  | structArr (children : List ArrayDyn)
  | otherArr

/-- The source produced by a successful build (the wrapper structure,
mirroring `DynamicSource` contents). -/
inductive Source where
  | primitive (t : ConcreteType)
  | boolean
  | struct (names : List String) (values : List Source)

/-- Outcome of running a builder function: `Ok`, `Err`, or a Rust panic
(out-of-bounds indexing). -/
inductive RunResult (α : Type) where
  | ok (a : α)
  | err (msg : String)
  | panic (msg : String)
deriving DecidableEq, Repr

def RunResult.isPanic : RunResult α → Bool
  | .panic _ => true
  | _ => false

def RunResult.isErr : RunResult α → Bool
  | .err _ => true
  | _ => false

/-- The concrete element type a primitive `DataType` dispatches to in
`build_dynamic_source` (the `Int8 ..= Float64` arms). -/
def primConcrete : DataType → Option ConcreteType
  | .int8 => some .i8
  | .int16 => some .i16
  | .int32 => some .i32
  | .int64 => some .i64
  | .uint8 => some .u8
  | .uint16 => some .u16
  | .uint32 => some .u32
  | .uint64 => some .u64
  | .float32 => some .f32
  | .float64 => some .f64
  | _ => none

/-- The debug rendering of a data type, standing in for the Rust debug
format `{dt:?}` in the unsupported-type error message. -/
def dataTypeName : DataType → String
  | .null => "Null"
  | .boolean => "Boolean"
  | .int8 => "Int8"
  | .int16 => "Int16"
  | .int32 => "Int32"
  | .int64 => "Int64"
  | .uint8 => "UInt8"
  | .uint16 => "UInt16"
  | .uint32 => "UInt32"
  | .uint64 => "UInt64"
  | .float32 => "Float32"
  | .float64 => "Float64"
  | .utf8 => "Utf8"
  | .largeUtf8 => "LargeUtf8"
  | .date32 => "Date32"
  | .date64 => "Date64"
  | .time64 _ => "Time64"
  | .struct _ => "Struct"

/-- Is the data type one of the arms implemented by `build_dynamic_source`
(the arrow2 source family)? -/
def isImplementedArrow2 : DataType → Bool
  | .int8 => true
  | .int16 => true
  | .int32 => true
  | .int64 => true
  | .uint8 => true
  | .uint16 => true
  | .uint32 => true
  | .uint64 => true
  | .float32 => true
  | .float64 => true
  | .boolean => true
  | .struct _ => true
  | _ => false

/-- The concrete element type of a dynamic array, when it is a primitive
array (what a `downcast_ref::<PrimitiveArray<T>>` can hit). -/
def concreteOf : ArrayDyn → Option ConcreteType
  | .primitiveArr t _ => some t
  | _ => none

/-- Is the dynamic array concretely a `BooleanArray`? -/
def isBooleanArr : ArrayDyn → Bool
  | .booleanArr _ => true
  | _ => false

/-- Is the dynamic array concretely a `StructArray`? -/
def isStructArr : ArrayDyn → Bool
  | .structArr _ => true
  | _ => false

/-- Embeds `build_dynamic_primitive_source::<T>`: downcast the dynamic array to
`PrimitiveArray<T>` and wrap it; a failed downcast is the error
`Mismatched type`. -/
def buildDynamicPrimitiveSource (t : ConcreteType) (array : ArrayDyn) : RunResult Source :=
  match array with
  | .primitiveArr ct _ => if ct = t then .ok (.primitive t) else .err "Mismatched type"
  | _ => .err "Mismatched type"

mutual

/-- Embeds `build_dynamic_source`: dispatch on the data type of the field; primitive and
boolean types downcast and wrap, `Struct` recurses into the children, and
every other data type fails with `{dt:?} not yet supported`. -/
def buildDynamicSource (dt : DataType) (array : ArrayDyn) : RunResult Source :=
  match dt with
  | .int8 => buildDynamicPrimitiveSource .i8 array
  | .int16 => buildDynamicPrimitiveSource .i16 array
  | .int32 => buildDynamicPrimitiveSource .i32 array
  | .int64 => buildDynamicPrimitiveSource .i64 array
  | .uint8 => buildDynamicPrimitiveSource .u8 array
  | .uint16 => buildDynamicPrimitiveSource .u16 array
  | .uint32 => buildDynamicPrimitiveSource .u32 array
  | .uint64 => buildDynamicPrimitiveSource .u64 array
  | .float32 => buildDynamicPrimitiveSource .f32 array
  | .float64 => buildDynamicPrimitiveSource .f64 array
  | .boolean =>
    match array with
    | .booleanArr _ => .ok .boolean
    | _ => .err "mismatched types"
  | .struct fields => buildDynamicStructSource fields array
  | _ => .err (dataTypeName dt ++ " not yet supported")

/-- Embeds `build_dynamic_struct_source`: downcast to `StructArray` (failure is the
error `mismatched type`), then build one child source per schema field,
indexing `children[i]` by field position — exhausted children are a Rust
out-of-bounds panic. -/
def buildDynamicStructSource (fields : List (String × DataType)) (array : ArrayDyn) :
    RunResult Source :=
  match array with
  | .structArr children =>
    match buildStructItems fields children with
    | .ok pairs => .ok (.struct (pairs.map Prod.fst) (pairs.map Prod.snd))
    | .err m => .err m
    | .panic m => .panic m
  | _ => .err "mismatched type"

/-- The `for i in 0..fields.len()` loop shared by `build_record_source` and
`build_dynamic_struct_source`: pair each field with the array at its
position, building left to right. -/
def buildStructItems (fields : List (String × DataType)) (arrays : List ArrayDyn) :
    RunResult (List (String × Source)) :=
  match fields with
  | [] => .ok []
  | f :: fs =>
    match arrays with
    | [] => .panic "index out of bounds"
    | a :: rest =>
      match buildDynamicSource f.2 a with
      | .ok s =>
        match buildStructItems fs rest with
        | .ok items => .ok ((f.1, s) :: items)
        | .err m => .err m
        | .panic m => .panic m
      | .err m => .err m
      | .panic m => .panic m

end

/-- Embeds `build_record_source`: build one dynamic source per top-level field,
indexing `arrays[i]` by field position without a length check. -/
def buildRecordSource (fields : List (String × DataType)) (arrays : List ArrayDyn) :
    RunResult (List String × List Source) :=
  match buildStructItems fields arrays with
  | .ok pairs => .ok (pairs.map Prod.fst, pairs.map Prod.snd)
  | .err m => .err m
  | .panic m => .panic m

/-! ## Date-string strategies

Modelled from the spec (§4.2, §4.3): under `UtcStrAsDate64` or
`NaiveStrAsDate64` a `Date64` builder parses an ISO-8601 string to a UTC
instant in milliseconds since the epoch, and the matching source formats
the stored integer back into a string.  The civil-date arithmetic is the
standard proleptic-Gregorian days-from-civil conversion. -/

/-- A parsed civil date-time: year, month, day, hour, minute, second. -/
structure CivilDateTime where
  year : Int
  month : Int
  day : Int
  hour : Int
  minute : Int
  second : Int
deriving DecidableEq, Repr

/-- Days from the epoch 1970-01-01 of a proleptic-Gregorian civil date. -/
def daysFromCivil (y m d : Int) : Int :=
  let y := y - (if m ≤ 2 then 1 else 0)
  let era := Int.fdiv y 400
  let yoe := y - era * 400
  let doy := Int.fdiv (153 * (m + (if m > 2 then -3 else 9)) + 2) 5 + d - 1
  let doe := yoe * 365 + Int.fdiv yoe 4 - Int.fdiv yoe 100 + doy
  era * 146097 + doe - 719468

/-- Milliseconds since the epoch of a civil date-time (UTC). -/
def epochMillis (t : CivilDateTime) : Int :=
  daysFromCivil t.year t.month t.day * 86400000 +
    (t.hour * 3600 + t.minute * 60 + t.second) * 1000

/-- Civil date from days since the epoch (inverse of `daysFromCivil`). -/
def civilFromDays (z : Int) : Int × Int × Int :=
  let z := z + 719468
  let era := Int.fdiv z 146097
  let doe := z - era * 146097
  let yoe := Int.fdiv (doe - Int.fdiv doe 1460 + Int.fdiv doe 36524 - Int.fdiv doe 146096) 365
  let y := yoe + era * 400
  let doy := doe - (365 * yoe + Int.fdiv yoe 4 - Int.fdiv yoe 100)
  let mp := Int.fdiv (5 * doy + 2) 153
  let d := doy - Int.fdiv (153 * mp + 2) 5 + 1
  let m := mp + (if mp < 10 then 3 else -9)
  (y + (if m ≤ 2 then 1 else 0), m, d)

/-- Civil date-time from milliseconds since the epoch. -/
def civilFromMillis (ms : Int) : CivilDateTime :=
  let days := Int.fdiv ms 86400000
  let secOfDay := Int.fdiv (Int.fmod ms 86400000) 1000
  let (y, m, d) := civilFromDays days
  { year := y, month := m, day := d,
    hour := Int.fdiv secOfDay 3600,
    minute := Int.fdiv (Int.fmod secOfDay 3600) 60,
    second := Int.fmod secOfDay 60 }

/-- Is the character an ASCII decimal digit? -/
def isDigitChar (c : Char) : Bool :=
  48 ≤ c.toNat && c.toNat ≤ 57

/-- Numeric value of an ASCII digit. -/
def digitVal (c : Char) : Int :=
  Int.ofNat c.toNat - 48

/-- Parse a naive ISO-8601 date-time `YYYY-MM-DDTHH:MM:SS` given as a
character list. -/
def parseNaiveChars : List Char → Option CivilDateTime
  | [y1, y2, y3, y4, '-', m1, m2, '-', d1, d2, 'T', h1, h2, ':', n1, n2, ':', s1, s2] =>
    if isDigitChar y1 && isDigitChar y2 && isDigitChar y3 && isDigitChar y4 &&
        isDigitChar m1 && isDigitChar m2 && isDigitChar d1 && isDigitChar d2 &&
        isDigitChar h1 && isDigitChar h2 && isDigitChar n1 && isDigitChar n2 &&
        isDigitChar s1 && isDigitChar s2 then
      some { year := digitVal y1 * 1000 + digitVal y2 * 100 + digitVal y3 * 10 + digitVal y4,
             month := digitVal m1 * 10 + digitVal m2,
             day := digitVal d1 * 10 + digitVal d2,
             hour := digitVal h1 * 10 + digitVal h2,
             minute := digitVal n1 * 10 + digitVal n2,
             second := digitVal s1 * 10 + digitVal s2 }
    else none
  | _ => none

/-- Parse a UTC ISO-8601 date-time `YYYY-MM-DDTHH:MM:SSZ` (trailing `Z`)
given as a character list. -/
def parseUtcChars : List Char → Option CivilDateTime
  | [y1, y2, y3, y4, c1, m1, m2, c2, d1, d2, c3, h1, h2, c4, n1, n2, c5, s1, s2, 'Z'] =>
    parseNaiveChars [y1, y2, y3, y4, c1, m1, m2, c2, d1, d2, c3, h1, h2, c4, n1, n2, c5, s1, s2]
  | _ => none

/-- Parse a naive date-time string to milliseconds since the epoch. -/
def parseNaiveToMillis (s : String) : Option Int :=
  (parseNaiveChars s.data).map epochMillis

/-- Parse a UTC date-time string to milliseconds since the epoch. -/
def parseUtcToMillis (s : String) : Option Int :=
  (parseUtcChars s.data).map epochMillis

/-- Render a natural number zero-padded to two digits. -/
def pad2 (n : Nat) : String :=
  if n < 10 then "0" ++ toString n else toString n

/-- Render a natural number zero-padded to four digits. -/
def pad4 (n : Nat) : String :=
  if n < 10 then "000" ++ toString n
  else if n < 100 then "00" ++ toString n
  else if n < 1000 then "0" ++ toString n
  else toString n

/-- Format a civil date-time as the naive ISO-8601 string
`YYYY-MM-DDTHH:MM:SS`. -/
def formatNaive (t : CivilDateTime) : String :=
  pad4 t.year.toNat ++ "-" ++ pad2 t.month.toNat ++ "-" ++ pad2 t.day.toNat ++ "T" ++
    pad2 t.hour.toNat ++ ":" ++ pad2 t.minute.toNat ++ ":" ++ pad2 t.second.toNat

/-- Modelled from the spec: the `Date64` source under `NaiveStrAsDate64`,
formatting the stored milliseconds as a naive ISO-8601 string. -/
def formatNaiveMillis (ms : Int) : String :=
  formatNaive (civilFromMillis ms)

/-- Modelled from the spec: the `Date64` source under `UtcStrAsDate64`,
formatting the stored milliseconds as a UTC ISO-8601 string. -/
def formatUtcMillis (ms : Int) : String :=
  formatNaive (civilFromMillis ms) ++ "Z"

/-- Modelled from the spec: serializing strings into a `Date64` column under
`UtcStrAsDate64` — each string is parsed to a UTC instant in milliseconds;
an unparsable string is a Parse error for that row. -/
def serializeUtcStrAsDate64 : List String → Except String (List Int)
  | [] => .ok []
  | s :: rest =>
    match parseUtcToMillis s with
    | none => .error "Parse"
    | some v =>
      match serializeUtcStrAsDate64 rest with
      | .ok vs => .ok (v :: vs)
      | .error e => .error e

/-- Modelled from the spec: serializing strings into a `Date64` column under
`NaiveStrAsDate64`. -/
def serializeNaiveStrAsDate64 : List String → Except String (List Int)
  | [] => .ok []
  | s :: rest =>
    match parseNaiveToMillis s with
    | none => .error "Parse"
    | some v =>
      match serializeNaiveStrAsDate64 rest with
      | .ok vs => .ok (v :: vs)
      | .error e => .error e

/-- Modelled from the spec: deserializing a `Date64` column under
`UtcStrAsDate64` back into strings. -/
def deserializeUtcStrAsDate64 (vs : List Int) : List String :=
  vs.map formatUtcMillis

/-- Modelled from the spec: deserializing a `Date64` column under
`NaiveStrAsDate64` back into strings. -/
def deserializeNaiveStrAsDate64 (vs : List Int) : List String :=
  vs.map formatNaiveMillis

/-! ## Schema tracing for string-valued fields

Modelled from the spec (§4.6) and the tracing tests of the repository: the
tracer unifies the observations of one field across samples.  String
samples default to `LargeUtf8`; with date guessing enabled, a run of
homogeneous UTC (respectively naive) ISO-8601 strings is typed `Date64`
with the matching strategy, and any disagreement falls back to
`LargeUtf8`.  A null sample only sets the nullable flag. -/

/-- Date classification of one string sample under guess-dates. -/
inductive StrClass where
  | utcDate
  | naiveDate
  | plain
deriving DecidableEq, Repr

/-- Classify a string sample: ISO-8601 with trailing `Z`, ISO-8601 with a
time component but no `Z`, or a plain string. -/
def classifyStr (s : String) : StrClass :=
  if (parseUtcChars s.data).isSome then .utcDate
  else if (parseNaiveChars s.data).isSome then .naiveDate
  else .plain

/-- What the tracer has accumulated about the type of a string-valued field. -/
inductive StrState where
  | unknown
  | utc
  | naive
  | plainStr
deriving DecidableEq, Repr

/-- Unify the accumulated state with one more string observation:
agreement keeps the date candidate, any disagreement falls back to plain
strings. -/
def unifyStr (st : StrState) (c : StrClass) : StrState :=
  match st, c with
  | .unknown, .utcDate => .utc
  | .unknown, .naiveDate => .naive
  | .unknown, .plain => .plainStr
  | .utc, .utcDate => .utc
  | .utc, _ => .plainStr
  | .naive, .naiveDate => .naive
  | .naive, _ => .plainStr
  | .plainStr, _ => .plainStr

/-- The tracer state for one string-valued field. -/
structure TraceState where
  strState : StrState
  nullable : Bool
deriving DecidableEq, Repr

/-- Observe one sample: a null sample sets the nullable flag and nothing
else; a string sample refines the type state (classified only when
guess-dates is on, a plain string otherwise). -/
def observeSample (guessDates : Bool) (st : TraceState) : Option String → TraceState
  | none => { st with nullable := true }
  | some s =>
    { st with strState := unifyStr st.strState (if guessDates then classifyStr s else .plain) }

/-- The initial tracer state for a fresh field. -/
def initialTraceState : TraceState :=
  { strState := .unknown, nullable := false }

/-- Run the tracer over the samples of a field. -/
def traceSamples (guessDates : Bool) (samples : List (Option String)) : TraceState :=
  samples.foldl (observeSample guessDates) initialTraceState

/-- Finalize the traced state into a field: homogeneous date strings become
`Date64` with the matching strategy, everything else `LargeUtf8` with no
strategy. -/
def finalizeStrField (name : String) (st : TraceState) : SField :=
  match st.strState with
  | .utc => { name := name, dataType := .date64, nullable := st.nullable,
              strategy := some .utcStrAsDate64 }
  | .naive => { name := name, dataType := .date64, nullable := st.nullable,
                strategy := some .naiveStrAsDate64 }
  | _ => { name := name, dataType := .largeUtf8, nullable := st.nullable, strategy := none }

/-- Trace one string-valued field from its samples. -/
def traceStrField (guessDates : Bool) (name : String) (samples : List (Option String)) : SField :=
  finalizeStrField name (traceSamples guessDates samples)

/-! ## Theorems -/

/-- Auxiliary: a primitive column of in-range values and null slots
round-trips through the builder and the source. -/
theorem serializePrimitive_roundtrip (lo hi : Int) (xs : List (Option Int))
    (hlegal : xs.all (legalValue lo hi) = true) :
    (serializePrimitive lo hi xs).map deserializePrimitive = .ok xs := by
  induction xs with
  | nil => rfl
  | cons x rest ih =>
    rw [List.all_cons, Bool.and_eq_true] at hlegal
    obtain ⟨hx, hrest⟩ := hlegal
    have ih' := ih hrest
    cases x with
    | none =>
      cases hser : serializePrimitive lo hi rest with
      | ok c =>
        rw [hser] at ih'
        simp only [Except.map] at ih'
        simp only [serializePrimitive, hser, Except.map, deserializePrimitive,
          List.zipWith]
        simp only [deserializePrimitive] at ih'
        have h := Except.ok.inj ih'
        simp [h]
      | error e => rw [hser] at ih'; simp [Except.map] at ih'
    | some v =>
      have hv : lo ≤ v ∧ v ≤ hi := by
        simp only [legalValue, Bool.and_eq_true, decide_eq_true_eq] at hx
        exact hx
      cases hser : serializePrimitive lo hi rest with
      | ok c =>
        rw [hser] at ih'
        simp only [Except.map] at ih'
        simp only [serializePrimitive, hser, if_pos hv, Except.map,
          deserializePrimitive, List.zipWith]
        have h := Except.ok.inj ih'
        simp only [deserializePrimitive] at h
        simp [h]
      | error e => rw [hser] at ih'; simp [Except.map] at ih'

/-- Auxiliary: rebuilding a string from its character data is the
identity. -/
theorem string_mk_data (s : String) : String.mk s.data = s := rfl

/-- Auxiliary: a null slot is legal for every data type. -/
theorem legalFor_none (dt : DataType) : legalFor dt none = true := by
  simp [legalFor]

/-- Auxiliary: an integer column holding one legal record (value or null)
round-trips. -/
theorem serializeIntColumnAux_single (lo hi : Int) (v : Option Value)
    (h : v.elim True (fun w => legalIntValue lo hi w = true)) :
    (serializeIntColumnAux lo hi [v]).map deserializeColumn = .ok [v] := by
  cases v with
  | none => simp [serializeIntColumnAux, serializeIntRows, deserializeColumn, Except.map]
  | some w =>
    cases w with
    | intV x =>
      simp only [Option.elim, legalIntValue, Bool.and_eq_true, decide_eq_true_eq] at h
      simp [serializeIntColumnAux, serializeIntRows, h.1, h.2, deserializeColumn, Except.map]
    | boolV b => simp [legalIntValue] at h
    | floatV bits => simp [legalIntValue] at h
    | strV s => simp [legalIntValue] at h
    | structV cs => simp [legalIntValue] at h

/-- Auxiliary: when every child field builds its one-record column, the
struct children of a single null record build. -/
theorem structCols_single_none (fields : List (String × DataType))
    (IH : ∀ f ∈ fields, ∃ col, serializeColumn f.2 [none] = .ok col) :
    ∃ cols, serializeStructCols fields [none] = .ok cols := by
  induction fields with
  | nil => exact ⟨[], by simp [serializeStructCols]⟩
  | cons f fs ih =>
    obtain ⟨col, hcol⟩ := IH f (List.mem_cons_self f fs)
    obtain ⟨cols, hcols⟩ := ih (fun g hg => IH g (List.mem_cons_of_mem f hg))
    exact ⟨col :: cols, by
      simp [serializeStructCols, mapExcept, headChild, tailChild, hcol, hcols]⟩

/-- Auxiliary: when every child field round-trips its one-record column,
the struct children of a single aligned record build, and the head slots of
their deserialized columns recover the child values. -/
theorem structCols_single_some (fields : List (String × DataType)) (cs : List (Option Value))
    (IH : ∀ f ∈ fields, ∀ c, legalFor f.2 c = true →
      ∃ col, serializeColumn f.2 [c] = .ok col ∧ deserializeColumn col = [c])
    (hleg : legalChildren fields cs = true) :
    ∃ cols, serializeStructCols fields [some (.structV cs)] = .ok cols ∧
      (deserializeCols cols).map (fun l => l.headD none) = cs := by
  induction fields generalizing cs with
  | nil =>
    cases cs with
    | nil => exact ⟨[], by simp [serializeStructCols], by simp [deserializeCols]⟩
    | cons c cs' => simp [legalChildren] at hleg
  | cons f fs ih =>
    cases cs with
    | nil => simp [legalChildren] at hleg
    | cons c cs' =>
      simp only [legalChildren, Bool.and_eq_true] at hleg
      obtain ⟨col, hcol, hdes⟩ := IH f (List.mem_cons_self f fs) c hleg.1
      obtain ⟨cols, hcols, hmap⟩ :=
        ih cs' (fun g hg => IH g (List.mem_cons_of_mem f hg)) hleg.2
      refine ⟨col :: cols, ?_, ?_⟩
      · simp [serializeStructCols, mapExcept, headChild, tailChild, hcol, hcols]
      · simp only [deserializeCols, List.map_cons]
        rw [hdes, hmap]
        rfl

/-- C1: for every supported data type and every legal record — boundary
integers, booleans, float bit patterns, strings, struct values, and null
slots alike — serializing the one-record list and deserializing the
resulting column yields the record back (spec-modelled codec). -/
theorem c1_value_roundtrip (dt : DataType) (v : Option Value)
    (h : legalFor dt v = true) :
    (serializeColumn dt [v]).map deserializeColumn = .ok [v] := by
  cases dt with
  | null =>
    cases v with
    | none => simp [serializeColumn, deserializeColumn, Except.map, List.replicate]
    | some w => simp [legalFor, intRange] at h
  | boolean =>
    cases v with
    | none => simp [serializeColumn, serializeBoolRows, deserializeColumn, Except.map]
    | some w =>
      cases w with
      | boolV b => simp [serializeColumn, serializeBoolRows, deserializeColumn, Except.map]
      | intV x => simp [legalFor, intRange] at h
      | floatV bits => simp [legalFor, intRange] at h
      | strV s => simp [legalFor, intRange] at h
      | structV cs => simp [legalFor, intRange] at h
  | int8 =>
    have hv : v.elim True (fun w => legalIntValue (-(2 ^ 7)) (2 ^ 7 - 1) w = true) := by
      cases v <;> simpa [legalFor, intRange] using h
    have hr := serializeIntColumnAux_single (-(2 ^ 7)) (2 ^ 7 - 1) v hv
    simpa [serializeColumn] using hr
  | int16 =>
    have hv : v.elim True (fun w => legalIntValue (-(2 ^ 15)) (2 ^ 15 - 1) w = true) := by
      cases v <;> simpa [legalFor, intRange] using h
    have hr := serializeIntColumnAux_single (-(2 ^ 15)) (2 ^ 15 - 1) v hv
    simpa [serializeColumn] using hr
  | int32 =>
    have hv : v.elim True (fun w => legalIntValue (-(2 ^ 31)) (2 ^ 31 - 1) w = true) := by
      cases v <;> simpa [legalFor, intRange] using h
    have hr := serializeIntColumnAux_single (-(2 ^ 31)) (2 ^ 31 - 1) v hv
    simpa [serializeColumn] using hr
  | int64 =>
    have hv : v.elim True (fun w => legalIntValue (-(2 ^ 63)) (2 ^ 63 - 1) w = true) := by
      cases v <;> simpa [legalFor, intRange] using h
    have hr := serializeIntColumnAux_single (-(2 ^ 63)) (2 ^ 63 - 1) v hv
    simpa [serializeColumn] using hr
  | uint8 =>
    have hv : v.elim True (fun w => legalIntValue 0 (2 ^ 8 - 1) w = true) := by
      cases v <;> simpa [legalFor, intRange] using h
    have hr := serializeIntColumnAux_single 0 (2 ^ 8 - 1) v hv
    simpa [serializeColumn] using hr
  | uint16 =>
    have hv : v.elim True (fun w => legalIntValue 0 (2 ^ 16 - 1) w = true) := by
      cases v <;> simpa [legalFor, intRange] using h
    have hr := serializeIntColumnAux_single 0 (2 ^ 16 - 1) v hv
    simpa [serializeColumn] using hr
  | uint32 =>
    have hv : v.elim True (fun w => legalIntValue 0 (2 ^ 32 - 1) w = true) := by
      cases v <;> simpa [legalFor, intRange] using h
    have hr := serializeIntColumnAux_single 0 (2 ^ 32 - 1) v hv
    simpa [serializeColumn] using hr
  | uint64 =>
    have hv : v.elim True (fun w => legalIntValue 0 (2 ^ 64 - 1) w = true) := by
      cases v <;> simpa [legalFor, intRange] using h
    have hr := serializeIntColumnAux_single 0 (2 ^ 64 - 1) v hv
    simpa [serializeColumn] using hr
  | date32 =>
    have hv : v.elim True (fun w => legalIntValue (-(2 ^ 31)) (2 ^ 31 - 1) w = true) := by
      cases v <;> simpa [legalFor, intRange] using h
    have hr := serializeIntColumnAux_single (-(2 ^ 31)) (2 ^ 31 - 1) v hv
    simpa [serializeColumn] using hr
  | date64 =>
    have hv : v.elim True (fun w => legalIntValue (-(2 ^ 63)) (2 ^ 63 - 1) w = true) := by
      cases v <;> simpa [legalFor, intRange] using h
    have hr := serializeIntColumnAux_single (-(2 ^ 63)) (2 ^ 63 - 1) v hv
    simpa [serializeColumn] using hr
  | time64 u =>
    have hv : v.elim True (fun w => legalIntValue (-(2 ^ 63)) (2 ^ 63 - 1) w = true) := by
      cases v <;> simpa [legalFor, intRange] using h
    have hr := serializeIntColumnAux_single (-(2 ^ 63)) (2 ^ 63 - 1) v hv
    simpa [serializeColumn] using hr
  | float32 =>
    cases v with
    | none => simp [serializeColumn, serializeFloatRows, deserializeColumn, Except.map]
    | some w =>
      cases w with
      | floatV bits =>
        have hb : bits < 2 ^ 32 := by simpa [legalFor, intRange] using h
        have hb' : bits < 4294967296 := by simpa using hb
        simp [serializeColumn, serializeFloatRows, hb', deserializeColumn, Except.map]
      | intV x => simp [legalFor, intRange] at h
      | boolV b => simp [legalFor, intRange] at h
      | strV s => simp [legalFor, intRange] at h
      | structV cs => simp [legalFor, intRange] at h
  | float64 =>
    cases v with
    | none => simp [serializeColumn, serializeFloatRows, deserializeColumn, Except.map]
    | some w =>
      cases w with
      | floatV bits =>
        have hb : bits < 2 ^ 64 := by simpa [legalFor, intRange] using h
        have hb' : bits < 18446744073709551616 := by simpa using hb
        simp [serializeColumn, serializeFloatRows, hb', deserializeColumn, Except.map]
      | intV x => simp [legalFor, intRange] at h
      | boolV b => simp [legalFor, intRange] at h
      | strV s => simp [legalFor, intRange] at h
      | structV cs => simp [legalFor, intRange] at h
  | utf8 =>
    cases v with
    | none => simp [serializeColumn, serializeStrRows, deserializeColumn, readStrRows, Except.map]
    | some w =>
      cases w with
      | strV s =>
        have hs : (s.length : Int) ≤ 2 ^ 31 - 1 := by simpa [legalFor, intRange] using h
        simp only [serializeColumn, serializeStrRows]
        rw [if_pos (by simpa using hs)]
        simp only [Except.map, readStrRows, deserializeColumn]
        simp only [if_true, zero_add, sub_zero, List.append_nil, Int.toNat_natCast,
          String.length, List.take_length]
      | intV x => simp [legalFor, intRange] at h
      | boolV b => simp [legalFor, intRange] at h
      | floatV bits => simp [legalFor, intRange] at h
      | structV cs => simp [legalFor, intRange] at h
  | largeUtf8 =>
    cases v with
    | none => simp [serializeColumn, serializeStrRows, deserializeColumn, readStrRows, Except.map]
    | some w =>
      cases w with
      | strV s =>
        have hs : (s.length : Int) ≤ 2 ^ 63 - 1 := by simpa [legalFor, intRange] using h
        simp only [serializeColumn, serializeStrRows]
        rw [if_pos (by simpa using hs)]
        simp only [Except.map, readStrRows, deserializeColumn]
        simp only [if_true, zero_add, sub_zero, List.append_nil, Int.toNat_natCast,
          String.length, List.take_length]
      | intV x => simp [legalFor, intRange] at h
      | boolV b => simp [legalFor, intRange] at h
      | floatV bits => simp [legalFor, intRange] at h
      | structV cs => simp [legalFor, intRange] at h
  | struct fields =>
    cases v with
    | none =>
      have hcols : ∃ cols, serializeStructCols fields [none] = .ok cols := by
        refine structCols_single_none fields (fun f hf => ?_)
        have hr := c1_value_roundtrip f.2 none (legalFor_none f.2)
        cases hser : serializeColumn f.2 [none] with
        | ok col => exact ⟨col, rfl⟩
        | error e => rw [hser] at hr; simp [Except.map] at hr
      obtain ⟨cols, hcols⟩ := hcols
      simp [serializeColumn, hcols, deserializeColumn, readStructRows, Except.map]
    | some w =>
      cases w with
      | structV cs =>
        have hleg : legalChildren fields cs = true := by simpa [legalFor, intRange] using h
        obtain ⟨cols, hser, hheads⟩ :=
          structCols_single_some fields cs (fun f hf c hc => by
            have hr := c1_value_roundtrip f.2 c hc
            cases hcol : serializeColumn f.2 [c] with
            | ok col =>
              rw [hcol] at hr
              simp only [Except.map] at hr
              exact ⟨col, rfl, Except.ok.inj hr⟩
            | error e => rw [hcol] at hr; simp [Except.map] at hr) hleg
        simp only [serializeColumn, hser, List.map_cons, List.map_nil, Option.isSome]
        simp only [Except.map, deserializeColumn, readStructRows, if_true]
        rw [hheads]
      | intV x => simp [legalFor, intRange] at h
      | boolV b => simp [legalFor, intRange] at h
      | floatV bits => simp [legalFor, intRange] at h
      | strV s => simp [legalFor, intRange] at h
termination_by sizeOf dt
decreasing_by
  all_goals
    subst_vars
    have hlt := List.sizeOf_lt_of_mem hf
    cases f with
    | mk a b =>
      simp at hlt ⊢
      omega

/-- Witness for C1: the `Date32` boundary `i32::MIN`, the
`Time64(Nanosecond)` boundary `i64::MAX`, a boolean, a float bit pattern, a
string, a one-field struct record, and a null slot all round-trip. -/
theorem c1_value_roundtrip_witness :
    (serializeColumn .date32 [some (.intV (-(2 ^ 31)))]).map deserializeColumn =
      .ok [some (.intV (-(2 ^ 31)))] ∧
    (serializeColumn (.time64 .nanosecond) [some (.intV (2 ^ 63 - 1))]).map
      deserializeColumn = .ok [some (.intV (2 ^ 63 - 1))] ∧
    (serializeColumn .boolean [some (.boolV true)]).map deserializeColumn =
      .ok [some (.boolV true)] ∧
    (serializeColumn .float64 [some (.floatV 1)]).map deserializeColumn =
      .ok [some (.floatV 1)] ∧
    (serializeColumn .utf8 [some (.strV "serde")]).map deserializeColumn =
      .ok [some (.strV "serde")] ∧
    (serializeColumn (.struct [("a", .int8)]) [some (.structV [some (.intV 5)])]).map
      deserializeColumn = .ok [some (.structV [some (.intV 5)])] ∧
    (serializeColumn .largeUtf8 [none]).map deserializeColumn = .ok [none] :=
  ⟨c1_value_roundtrip .date32 _ (by simp [legalFor, intRange, legalIntValue]),
   c1_value_roundtrip (.time64 .nanosecond) _ (by simp [legalFor, intRange, legalIntValue]),
   c1_value_roundtrip .boolean _ (by simp [legalFor, intRange]),
   c1_value_roundtrip .float64 _ (by simp [legalFor, intRange]),
   c1_value_roundtrip .utf8 _ (by simp [legalFor, intRange]; decide),
   c1_value_roundtrip (.struct [("a", .int8)]) _
     (by simp [legalFor, legalChildren, intRange, legalIntValue]),
   c1_value_roundtrip .largeUtf8 _ (by simp [legalFor])⟩

/-- C2 counterexample: under `NaiveStrAsDate64`, the string
`1900-01-01T15:18:45` is stored as `-2208933675000`, not `-2208936075000`
as the claim states (the two differ by 40 minutes). -/
theorem c2_naive_value_counterexample :
    serializeNaiveStrAsDate64 ["1900-01-01T15:18:45"] = .ok [-2208933675000] ∧
    (-2208933675000 : Int) ≠ -2208936075000 :=
  ⟨rfl, by decide⟩

/-- C2 (amended): `UtcStrAsDate64` stores `2020-12-24T08:30:00Z` and
`2023-05-05T16:06:00Z` exactly as `1608798600000` and `1683302760000` and
deserializing returns the same strings; `NaiveStrAsDate64` stores
`2022-09-11T18:34:48` as `1662921288000` and `1900-01-01T14:38:45` as
`-2208936075000`, and deserializing returns the same strings. -/
theorem c2_date64_strategy_values :
    serializeUtcStrAsDate64 ["2020-12-24T08:30:00Z", "2023-05-05T16:06:00Z"] =
      .ok [1608798600000, 1683302760000] ∧
    deserializeUtcStrAsDate64 [1608798600000, 1683302760000] =
      ["2020-12-24T08:30:00Z", "2023-05-05T16:06:00Z"] ∧
    serializeNaiveStrAsDate64 ["2022-09-11T18:34:48", "1900-01-01T14:38:45"] =
      .ok [1662921288000, -2208936075000] ∧
    deserializeNaiveStrAsDate64 [1662921288000, -2208936075000] =
      ["2022-09-11T18:34:48", "1900-01-01T14:38:45"] :=
  ⟨rfl, rfl, rfl, rfl⟩

/-- C3: a `Time64` data type with any unit other than `Microsecond` or
`Nanosecond` is rejected with a SchemaInvalid error whose message
enumerates the two valid units; it never succeeds. -/
theorem c3_time64_invalid_units (u : TimeUnit)
    (h1 : u ≠ .microsecond) (h2 : u ≠ .nanosecond) :
    validateTime64 u =
      .error "Error: expected valid time unit (Microsecond or Nanosecond)" := by
  cases u with
  | second => rfl
  | millisecond => rfl
  | microsecond => exact absurd rfl h1
  | nanosecond => exact absurd rfl h2

/-- Witness for C3: `Time64(Millisecond)` fails with the enumerating
message. -/
theorem c3_time64_invalid_units_witness :
    validateTime64 .millisecond =
      .error "Error: expected valid time unit (Microsecond or Nanosecond)" :=
  c3_time64_invalid_units .millisecond (by decide) (by decide)

/-- Auxiliary: once the type state of the tracer has left the UTC track
(`naive` or `plainStr`), no further samples can bring it back to `utc`. -/
theorem traceFold_away_from_utc (samples : List (Option String)) (st : TraceState)
    (h : st.strState = .naive ∨ st.strState = .plainStr) :
    (samples.foldl (observeSample true) st).strState = .naive ∨
      (samples.foldl (observeSample true) st).strState = .plainStr := by
  induction samples generalizing st with
  | nil => exact h
  | cons x rest ih =>
    cases x with
    | none => exact ih _ (by simpa [observeSample] using h)
    | some s =>
      refine ih _ ?_
      rcases h with h | h <;> cases hc : classifyStr s <;>
        simp [observeSample, unifyStr, h, hc]

/-- Auxiliary: once the type state of the tracer has left the naive track
(`utc` or `plainStr`), no further samples can bring it back to `naive`. -/
theorem traceFold_away_from_naive (samples : List (Option String)) (st : TraceState)
    (h : st.strState = .utc ∨ st.strState = .plainStr) :
    (samples.foldl (observeSample true) st).strState = .utc ∨
      (samples.foldl (observeSample true) st).strState = .plainStr := by
  induction samples generalizing st with
  | nil => exact h
  | cons x rest ih =>
    cases x with
    | none => exact ih _ (by simpa [observeSample] using h)
    | some s =>
      refine ih _ ?_
      rcases h with h | h <;> cases hc : classifyStr s <;>
        simp [observeSample, unifyStr, h, hc]

/-- Auxiliary: a tracing run that ends on `utc` saw only UTC-classified
string samples. -/
theorem traceFold_utc_all (samples : List (Option String)) (st : TraceState)
    (hfold : (samples.foldl (observeSample true) st).strState = .utc) :
    ∀ s : String, some s ∈ samples → classifyStr s = .utcDate := by
  induction samples generalizing st with
  | nil => intro s hs; simp at hs
  | cons x rest ih =>
    intro s hs
    rw [List.foldl_cons] at hfold
    rcases List.mem_cons.mp hs with hx | hx
    · subst hx
      cases hc : classifyStr s with
      | utcDate => rfl
      | naiveDate =>
        exfalso
        have hstep : (observeSample true st (some s)).strState = .naive ∨
            (observeSample true st (some s)).strState = .plainStr := by
          cases hstate : st.strState <;> simp [observeSample, unifyStr, hc, hstate]
        rcases traceFold_away_from_utc rest _ hstep with h | h <;>
          rw [hfold] at h <;> exact StrState.noConfusion h
      | plain =>
        exfalso
        have hstep : (observeSample true st (some s)).strState = .naive ∨
            (observeSample true st (some s)).strState = .plainStr := by
          cases hstate : st.strState <;> simp [observeSample, unifyStr, hc, hstate]
        rcases traceFold_away_from_utc rest _ hstep with h | h <;>
          rw [hfold] at h <;> exact StrState.noConfusion h
    · exact ih _ hfold s hx

/-- Auxiliary: a tracing run that ends on `naive` saw only naive-classified
string samples. -/
theorem traceFold_naive_all (samples : List (Option String)) (st : TraceState)
    (hfold : (samples.foldl (observeSample true) st).strState = .naive) :
    ∀ s : String, some s ∈ samples → classifyStr s = .naiveDate := by
  induction samples generalizing st with
  | nil => intro s hs; simp at hs
  | cons x rest ih =>
    intro s hs
    rw [List.foldl_cons] at hfold
    rcases List.mem_cons.mp hs with hx | hx
    · subst hx
      cases hc : classifyStr s with
      | naiveDate => rfl
      | utcDate =>
        exfalso
        have hstep : (observeSample true st (some s)).strState = .utc ∨
            (observeSample true st (some s)).strState = .plainStr := by
          cases hstate : st.strState <;> simp [observeSample, unifyStr, hc, hstate]
        rcases traceFold_away_from_naive rest _ hstep with h | h <;>
          rw [hfold] at h <;> exact StrState.noConfusion h
      | plain =>
        exfalso
        have hstep : (observeSample true st (some s)).strState = .utc ∨
            (observeSample true st (some s)).strState = .plainStr := by
          cases hstate : st.strState <;> simp [observeSample, unifyStr, hc, hstate]
        rcases traceFold_away_from_naive rest _ hstep with h | h <;>
          rw [hfold] at h <;> exact StrState.noConfusion h
    · exact ih _ hfold s hx

/-- C4: with date guessing enabled, whenever the string samples of one
field disagree in date format — two samples classified differently (one
ISO-8601 string with trailing `Z` and one without), or any sample that is
not a date at all — the traced data type is `LargeUtf8` with no date
strategy, not `Date64`. -/
theorem c4_incompatible_date_formats (name : String) (samples : List (Option String))
    (hdis : (∃ s1 s2 : String, some s1 ∈ samples ∧ some s2 ∈ samples ∧
        classifyStr s1 ≠ classifyStr s2) ∨
      (∃ s : String, some s ∈ samples ∧ classifyStr s = .plain)) :
    (traceStrField true name samples).dataType = .largeUtf8 ∧
      (traceStrField true name samples).strategy = none := by
  cases hst : (traceSamples true samples).strState with
  | unknown => constructor <;> simp [traceStrField, finalizeStrField, hst]
  | plainStr => constructor <;> simp [traceStrField, finalizeStrField, hst]
  | utc =>
    exfalso
    simp only [traceSamples] at hst
    have hall := traceFold_utc_all samples initialTraceState hst
    rcases hdis with ⟨s1, s2, h1, h2, hne⟩ | ⟨s, hmem, hplain⟩
    · exact hne ((hall s1 h1).trans (hall s2 h2).symm)
    · rw [hall s hmem] at hplain; exact StrClass.noConfusion hplain
  | naive =>
    exfalso
    simp only [traceSamples] at hst
    have hall := traceFold_naive_all samples initialTraceState hst
    rcases hdis with ⟨s1, s2, h1, h2, hne⟩ | ⟨s, hmem, hplain⟩
    · exact hne ((hall s1 h1).trans (hall s2 h2).symm)
    · rw [hall s hmem] at hplain; exact StrClass.noConfusion hplain

/-- Witness for C4: the mixed-format samples of the
`incompatible_date_formats_tracing` test and the samples with a non-date
string from `utc_as_date64_tracing_string_only_with_invalid` both trace to
`LargeUtf8` with no strategy. -/
theorem c4_incompatible_date_formats_witness :
    ((traceStrField true "item"
        [some "2015-09-18T23:56:04", some "2023-08-14T17:00:04Z"]).dataType =
        .largeUtf8 ∧
      (traceStrField true "item"
        [some "2015-09-18T23:56:04", some "2023-08-14T17:00:04Z"]).strategy = none) ∧
    ((traceStrField true "item"
        [some "2015-09-18T23:56:04Z", some "2023-08-14T17:00:04Z",
          some "not a date"]).dataType = .largeUtf8 ∧
      (traceStrField true "item"
        [some "2015-09-18T23:56:04Z", some "2023-08-14T17:00:04Z",
          some "not a date"]).strategy = none) :=
  ⟨c4_incompatible_date_formats "item" _
      (Or.inl ⟨"2015-09-18T23:56:04", "2023-08-14T17:00:04Z",
        by decide, by decide, by decide⟩),
   c4_incompatible_date_formats "item" _
      (Or.inr ⟨"not a date", by decide, by decide⟩)⟩

/-- Auxiliary: with date guessing off, the type state the tracer keeps for a
string-valued field never leaves the plain-string/unknown pair. -/
theorem traceSamples_no_guess_plain (samples : List (Option String)) (st : TraceState)
    (h : st.strState = .unknown ∨ st.strState = .plainStr) :
    (samples.foldl (observeSample false) st).strState = .unknown ∨
      (samples.foldl (observeSample false) st).strState = .plainStr := by
  induction samples generalizing st with
  | nil => exact h
  | cons x rest ih =>
    cases x with
    | none => exact ih _ (by simpa [observeSample] using h)
    | some s =>
      refine ih _ ?_
      rcases h with h | h <;> simp [observeSample, unifyStr, h]

/-- C5 counterexample: tracing the all-string samples of the `utc_as_str`
test with default options (no date guessing, tiny total byte size) yields
`LargeUtf8`, not `Utf8` as the claim states. -/
theorem c5_counterexample :
    (traceStrField false "item"
        [some "2020-12-24T08:30:00Z", some "2023-05-05T16:06:00Z"]).dataType =
      .largeUtf8 ∧
    DataType.largeUtf8 ≠ DataType.utf8 :=
  ⟨rfl, fun h => DataType.noConfusion h⟩

/-- C5 (amended): a field whose samples are all strings (date guessing not
applying) is traced as `LargeUtf8` with no strategy, directly and
regardless of sample byte sizes; `Utf8` is never produced. -/
theorem c5_strings_trace_large (name : String) (samples : List (Option String)) :
    (traceStrField false name samples).dataType = .largeUtf8 ∧
      (traceStrField false name samples).strategy = none := by
  have h := traceSamples_no_guess_plain samples initialTraceState (Or.inl rfl)
  unfold traceStrField traceSamples
  rcases h with h | h <;> simp [finalizeStrField, h]

/-- C6: a field whose data type is outside the set implemented by the
arrow2 source family returns the `not yet supported` error — no panic, no
source. -/
theorem c6_unsupported_data_type (dt : DataType) (array : ArrayDyn)
    (h : isImplementedArrow2 dt = false) :
    buildDynamicSource dt array = .err (dataTypeName dt ++ " not yet supported") := by
  cases dt <;> simp [buildDynamicSource, dataTypeName, isImplementedArrow2] at h ⊢

/-- Witness for C6: building a source for a `Date32` field over any dynamic
array fails with `Date32 not yet supported`. -/
theorem c6_unsupported_data_type_witness :
    buildDynamicSource .date32 .otherArr = .err "Date32 not yet supported" :=
  c6_unsupported_data_type .date32 .otherArr rfl

/-- Auxiliary: the type-state component of tracing depends only on the
type-state component of the starting state. -/
theorem traceSamples_strState_congr (g : Bool) (samples : List (Option String))
    (st₁ st₂ : TraceState) (h : st₁.strState = st₂.strState) :
    (samples.foldl (observeSample g) st₁).strState =
      (samples.foldl (observeSample g) st₂).strState := by
  induction samples generalizing st₁ st₂ with
  | nil => exact h
  | cons x rest ih =>
    cases x with
    | none => exact ih _ _ (by simpa [observeSample] using h)
    | some s => exact ih _ _ (by simp [observeSample, h])

/-- Auxiliary: once the tracer has marked a field nullable, it stays
nullable. -/
theorem traceSamples_nullable_mono (g : Bool) (samples : List (Option String))
    (st : TraceState) (h : st.nullable = true) :
    (samples.foldl (observeSample g) st).nullable = true := by
  induction samples generalizing st with
  | nil => exact h
  | cons x rest ih =>
    cases x with
    | none => exact ih _ (by simp [observeSample])
    | some s => exact ih _ (by simpa [observeSample] using h)

/-- C7: observing a null sample sets the nullable flag of the field and leaves
the traced data type and strategy exactly as they would be without the
null observation. -/
theorem c7_null_sets_nullable_only (g : Bool) (name : String)
    (pre post : List (Option String)) :
    (traceStrField g name (pre ++ none :: post)).dataType =
        (traceStrField g name (pre ++ post)).dataType ∧
      (traceStrField g name (pre ++ none :: post)).strategy =
        (traceStrField g name (pre ++ post)).strategy ∧
      (traceStrField g name (pre ++ none :: post)).nullable = true := by
  have hstate :
      (traceSamples g (pre ++ none :: post)).strState =
        (traceSamples g (pre ++ post)).strState := by
    unfold traceSamples
    rw [List.foldl_append, List.foldl_append, List.foldl_cons]
    exact traceSamples_strState_congr g post _ _ (by simp [observeSample])
  have hnull : (traceSamples g (pre ++ none :: post)).nullable = true := by
    unfold traceSamples
    rw [List.foldl_append, List.foldl_cons]
    exact traceSamples_nullable_mono g post _ (by simp [observeSample])
  unfold traceStrField finalizeStrField
  rw [hstate, hnull]
  cases (traceSamples g (pre ++ post)).strState <;> simp

/-- Auxiliary: a failed downcast in `build_dynamic_primitive_source` is the
`Mismatched type` error. -/
theorem buildDynamicPrimitiveSource_mismatch (t : ConcreteType) (arr : ArrayDyn)
    (h : concreteOf arr ≠ some t) :
    buildDynamicPrimitiveSource t arr = .err "Mismatched type" := by
  cases arr with
  | primitiveArr ct len =>
    simp only [concreteOf, ne_eq, Option.some.injEq] at h
    simp [buildDynamicPrimitiveSource, h]
  | booleanArr len => rfl
  | structArr children => rfl
  | otherArr => rfl

/-- C9: whenever the declared data type of the field does not match the concrete
runtime type of the array — so the downcast fails — `build_dynamic_source`
returns the mismatched-type error rather than panicking, in the primitive,
boolean and struct arms alike. -/
theorem c9_mismatched_downcast :
    (∀ (dt : DataType) (t : ConcreteType) (arr : ArrayDyn),
        primConcrete dt = some t → concreteOf arr ≠ some t →
        buildDynamicSource dt arr = .err "Mismatched type") ∧
    (∀ arr : ArrayDyn, isBooleanArr arr = false →
        buildDynamicSource .boolean arr = .err "mismatched types") ∧
    (∀ (fields : List (String × DataType)) (arr : ArrayDyn), isStructArr arr = false →
        buildDynamicSource (.struct fields) arr = .err "mismatched type") := by
  refine ⟨?_, ?_, ?_⟩
  · intro dt t arr hdt harr
    cases dt <;> simp only [primConcrete, Option.some.injEq] at hdt <;>
      first
        | exact Option.noConfusion hdt
        | (subst hdt; simp only [buildDynamicSource];
           exact buildDynamicPrimitiveSource_mismatch _ _ harr)
  · intro arr h
    cases arr with
    | booleanArr len => simp [isBooleanArr] at h
    | primitiveArr t len => simp [buildDynamicSource]
    | structArr children => simp [buildDynamicSource]
    | otherArr => simp [buildDynamicSource]
  · intro fields arr h
    cases arr with
    | structArr children => simp [isStructArr] at h
    | primitiveArr t len => simp [buildDynamicSource, buildDynamicStructSource]
    | booleanArr len => simp [buildDynamicSource, buildDynamicStructSource]
    | otherArr => simp [buildDynamicSource, buildDynamicStructSource]

/-- Witness for C9: an `Int32` field over a boolean array, a `Boolean`
field over an `i8` primitive array, and a `Struct` field over a
non-struct array each fail with their mismatched-type error. -/
theorem c9_mismatched_downcast_witness :
    buildDynamicSource .int32 (.booleanArr 1) = .err "Mismatched type" ∧
    buildDynamicSource .boolean (.primitiveArr .i8 1) = .err "mismatched types" ∧
    buildDynamicSource (.struct []) .otherArr = .err "mismatched type" :=
  ⟨c9_mismatched_downcast.1 .int32 .i32 (.booleanArr 1) rfl (by simp [concreteOf]),
   c9_mismatched_downcast.2.1 (.primitiveArr .i8 1) rfl,
   c9_mismatched_downcast.2.2 [] .otherArr rfl⟩

/-- Auxiliary: when the arrays cover every field position and no child
build panics, the shared field loop does not panic. -/
theorem buildStructItems_no_panic (fields : List (String × DataType))
    (arrays : List ArrayDyn) (hlen : fields.length ≤ arrays.length)
    (hp : ∀ p ∈ List.zip fields arrays, (buildDynamicSource p.1.2 p.2).isPanic = false) :
    (buildStructItems fields arrays).isPanic = false := by
  induction fields generalizing arrays with
  | nil => simp [buildStructItems, RunResult.isPanic]
  | cons f fs ih =>
    cases arrays with
    | nil => simp at hlen
    | cons a rest =>
      have hfa : (buildDynamicSource f.2 a).isPanic = false :=
        hp (f, a) (by simp [List.zip_cons_cons])
      have hrest : (buildStructItems fs rest).isPanic = false := by
        refine ih rest (by simpa using hlen) ?_
        intro p hpmem
        exact hp p (by simp only [List.zip_cons_cons, List.mem_cons]; exact Or.inr hpmem)
      simp only [buildStructItems]
      cases hb : buildDynamicSource f.2 a with
      | ok s =>
        cases hbi : buildStructItems fs rest with
        | ok items => simp [RunResult.isPanic]
        | err m => simp [RunResult.isPanic]
        | panic m => rw [hbi] at hrest; simp [RunResult.isPanic] at hrest
      | err m => simp [RunResult.isPanic]
      | panic m => rw [hb] at hfa; simp [RunResult.isPanic] at hfa

/-- Auxiliary: when there are fewer arrays than fields and every covered
position builds successfully, the shared field loop hits an out-of-bounds
index. -/
theorem buildStructItems_exhausts (fields : List (String × DataType))
    (arrays : List ArrayDyn) (hlen : arrays.length < fields.length)
    (hp : ∀ p ∈ List.zip fields arrays,
      (buildDynamicSource p.1.2 p.2).isErr = false ∧
        (buildDynamicSource p.1.2 p.2).isPanic = false) :
    buildStructItems fields arrays = .panic "index out of bounds" := by
  induction fields generalizing arrays with
  | nil => simp at hlen
  | cons f fs ih =>
    cases arrays with
    | nil => simp [buildStructItems]
    | cons a rest =>
      have hfa := hp (f, a) (by simp [List.zip_cons_cons])
      have hrest : buildStructItems fs rest = .panic "index out of bounds" := by
        refine ih rest (by simpa using hlen) ?_
        intro p hpmem
        exact hp p (by simp only [List.zip_cons_cons, List.mem_cons]; exact Or.inr hpmem)
      cases hb : buildDynamicSource f.2 a with
      | ok s => simp only [buildStructItems, hb, hrest]
      | err m => rw [hb] at hfa; simp [RunResult.isErr] at hfa
      | panic m => rw [hb] at hfa; simp [RunResult.isPanic] at hfa

/-- C8: `build_record_source` and `build_dynamic_struct_source` index the
arrays (struct children) by field position without a length check — with at
least as many arrays (children) as fields every index access is in bounds
and no panic arises from these loops, while a call with fewer arrays than
fields (whose covered positions build cleanly) panics with an out-of-bounds
index instead of returning an error. -/
theorem c8_positional_indexing :
    (∀ (fields : List (String × DataType)) (arrays : List ArrayDyn),
        fields.length ≤ arrays.length →
        (∀ p ∈ List.zip fields arrays, (buildDynamicSource p.1.2 p.2).isPanic = false) →
        (buildRecordSource fields arrays).isPanic = false) ∧
    (∀ (fields : List (String × DataType)) (arrays : List ArrayDyn),
        arrays.length < fields.length →
        (∀ p ∈ List.zip fields arrays,
          (buildDynamicSource p.1.2 p.2).isErr = false ∧
            (buildDynamicSource p.1.2 p.2).isPanic = false) →
        buildRecordSource fields arrays = .panic "index out of bounds") ∧
    (∀ (fields : List (String × DataType)) (children : List ArrayDyn),
        fields.length ≤ children.length →
        (∀ p ∈ List.zip fields children, (buildDynamicSource p.1.2 p.2).isPanic = false) →
        (buildDynamicStructSource fields (.structArr children)).isPanic = false) ∧
    (∀ (fields : List (String × DataType)) (children : List ArrayDyn),
        children.length < fields.length →
        (∀ p ∈ List.zip fields children,
          (buildDynamicSource p.1.2 p.2).isErr = false ∧
            (buildDynamicSource p.1.2 p.2).isPanic = false) →
        buildDynamicStructSource fields (.structArr children) =
          .panic "index out of bounds") := by
  refine ⟨?_, ?_, ?_, ?_⟩
  · intro fields arrays hlen hp
    have h := buildStructItems_no_panic fields arrays hlen hp
    unfold buildRecordSource
    cases hbi : buildStructItems fields arrays with
    | ok pairs => simp [RunResult.isPanic]
    | err m => simp [RunResult.isPanic]
    | panic m => rw [hbi] at h; simp [RunResult.isPanic] at h
  · intro fields arrays hlen hp
    have h := buildStructItems_exhausts fields arrays hlen hp
    unfold buildRecordSource
    rw [h]
  · intro fields children hlen hp
    have h := buildStructItems_no_panic fields children hlen hp
    simp only [buildDynamicStructSource]
    cases hbi : buildStructItems fields children with
    | ok pairs => simp [RunResult.isPanic]
    | err m => simp [RunResult.isPanic]
    | panic m => rw [hbi] at h; simp [RunResult.isPanic] at h
  · intro fields children hlen hp
    have h := buildStructItems_exhausts fields children hlen hp
    simp only [buildDynamicStructSource, h]

/-- Witness for C8: one boolean field over one boolean array builds without
panic (for the record and the struct builder alike), while two fields over
a single array panic with the out-of-bounds message in both. -/
theorem c8_positional_indexing_witness :
    (buildRecordSource [("a", .boolean)] [.booleanArr 2]).isPanic = false ∧
    buildRecordSource [("a", .boolean), ("b", .boolean)] [.booleanArr 2] =
      .panic "index out of bounds" ∧
    (buildDynamicStructSource [("a", .boolean)] (.structArr [.booleanArr 2])).isPanic =
      false ∧
    buildDynamicStructSource [("a", .boolean), ("b", .boolean)]
        (.structArr [.booleanArr 2]) = .panic "index out of bounds" := by
  have hok : (buildDynamicSource (("a", DataType.boolean) : String × DataType).2
      (ArrayDyn.booleanArr 2)).isErr = false ∧
      (buildDynamicSource (("a", DataType.boolean) : String × DataType).2
        (ArrayDyn.booleanArr 2)).isPanic = false := by
    constructor <;> simp [buildDynamicSource, RunResult.isErr, RunResult.isPanic]
  refine ⟨?_, ?_, ?_, ?_⟩
  · refine c8_positional_indexing.1 _ _ (by decide) ?_
    intro p hpmem
    rw [show List.zip [(("a", DataType.boolean))] [ArrayDyn.booleanArr 2] =
      [(("a", DataType.boolean), ArrayDyn.booleanArr 2)] from rfl,
      List.mem_singleton] at hpmem
    subst hpmem
    exact hok.2
  · refine c8_positional_indexing.2.1 _ _ (by decide) ?_
    intro p hpmem
    rw [show List.zip [(("a", DataType.boolean)), (("b", DataType.boolean))]
      [ArrayDyn.booleanArr 2] =
      [(("a", DataType.boolean), ArrayDyn.booleanArr 2)] from rfl,
      List.mem_singleton] at hpmem
    subst hpmem
    exact hok
  · refine c8_positional_indexing.2.2.1 _ _ (by decide) ?_
    intro p hpmem
    rw [show List.zip [(("a", DataType.boolean))] [ArrayDyn.booleanArr 2] =
      [(("a", DataType.boolean), ArrayDyn.booleanArr 2)] from rfl,
      List.mem_singleton] at hpmem
    subst hpmem
    exact hok.2
  · refine c8_positional_indexing.2.2.2 _ _ (by decide) ?_
    intro p hpmem
    rw [show List.zip [(("a", DataType.boolean)), (("b", DataType.boolean))]
      [ArrayDyn.booleanArr 2] =
      [(("a", DataType.boolean), ArrayDyn.booleanArr 2)] from rfl,
      List.mem_singleton] at hpmem
    subst hpmem
    exact hok

/-- C10: the schema DSL accepts the plural spelling of time units —
`Time64(Microseconds)` parses to the same data type as
`Time64(Microsecond)` — and the resulting column serializes and
deserializes `i64` records (boundaries included) successfully. -/
theorem c10_plural_time_unit_spelling :
    parseDataTypeStr "Time64(Microseconds)" = parseDataTypeStr "Time64(Microsecond)" ∧
    parseDataTypeStr "Time64(Microseconds)" = .ok (.time64 .microsecond) ∧
    intRange (.time64 .microsecond) = some (-(2 ^ 63), 2 ^ 63 - 1) ∧
    (serializePrimitive (-(2 ^ 63)) (2 ^ 63 - 1)
        [some (-(2 ^ 63)), some 0, some 100, some (2 ^ 63 - 1)]).map
      deserializePrimitive =
      .ok [some (-(2 ^ 63)), some 0, some 100, some (2 ^ 63 - 1)] :=
  ⟨rfl, rfl, rfl, serializePrimitive_roundtrip _ _ _ (by decide)⟩

end SerdeArrow
